import Mathlib

/-!
Verification development for scripts/plot_metrics.py: a linear pipeline that
reads the CSV file bench_sustained_metrics_round2.csv, parses six columns from
each row, and renders four time-series charts to PNG files.

Embedding conventions:
* Python floats are modelled as exact rationals (ℚ); the divisions in the
  script are by constants, and the spec treats them as exact divisions.
* Python int(...) on a string is modelled by pyInt (ASCII whitespace stripped,
  optional sign, decimal digits with single underscores between digits).
* datetime.fromisoformat is modelled by fromisoformat over a Timestamp
  structure, covering the ISO-8601 date / date-time strings with an optional
  UTC offset that the script's RFC3339 inputs use.
* A thrown exception (KeyError / ValueError during parsing) is modelled as
  Option.none; the observable behaviour of the process is an event trace
  (figure creation, file save, figure close, stdout line) plus an outcome
  mapped to the process exit code.
* csv.DictReader is modelled by dictReader: header line split on commas,
  each subsequent non-empty line zipped with the header names (field quoting
  is not modelled; no claim involves quoted fields).
-/

/-- One decimal digit? (ASCII) -/
def isDig (c : Char) : Bool := '0' ≤ c && c ≤ '9'

/-- Numeric value of an ASCII digit character. -/
def digVal (c : Char) : Nat := c.toNat - 48

/-- Continuation of a digit run in Python int() syntax: after a digit, either
the run ends, or a digit follows, or a single underscore followed by a digit. -/
def digRunRest : List Char → Bool
  | [] => true
  | '_' :: c :: rest => isDig c && digRunRest rest
  | c :: rest => isDig c && digRunRest rest

/-- A valid Python int() digit run: digit ('_'? digit)*. -/
def digRun : List Char → Bool
  | [] => false
  | c :: rest => isDig c && digRunRest rest

/-- Value of a digit string, ignoring underscores. -/
def digsVal (cs : List Char) : Nat :=
  (cs.filter (fun c => c ≠ '_')).foldl (fun n c => 10 * n + digVal c) 0

/-- Strip leading and trailing whitespace from a character list. -/
def stripWs (cs : List Char) : List Char :=
  ((cs.dropWhile Char.isWhitespace).reverse.dropWhile Char.isWhitespace).reverse

/-- Model of Python int(s) for a string s: strips surrounding whitespace,
accepts an optional sign and a run of decimal digits with single underscores
between digits; anything else raises ValueError (modelled as none). -/
def pyInt (s : String) : Option Int :=
  match stripWs s.toList with
  | '+' :: rest => if digRun rest then some (digsVal rest) else none
  | '-' :: rest => if digRun rest then some (-(digsVal rest : Int)) else none
  | rest => if digRun rest then some (digsVal rest) else none

/-- Model of the datetime value produced by datetime.fromisoformat. -/
structure Timestamp where
  year : Nat
  month : Nat
  day : Nat
  hour : Nat
  minute : Nat
  second : Nat
  microsecond : Nat
  /-- UTC offset in minutes, if the string carried one. -/
  tzOffsetMinutes : Option Int
deriving DecidableEq, Repr

/-- Gregorian leap-year test (as in Python's datetime). -/
def isLeap (y : Nat) : Bool := (y % 4 == 0 && y % 100 != 0) || y % 400 == 0

/-- Days in a month (as in Python's datetime range checks). -/
def daysInMonth (y m : Nat) : Nat :=
  if m = 2 then (if isLeap y then 29 else 28)
  else if m = 4 ∨ m = 6 ∨ m = 9 ∨ m = 11 then 30
  else 31

/-- Read exactly two digit characters. -/
def take2 : List Char → Option (Nat × List Char)
  | a :: b :: rest =>
    if isDig a && isDig b then some (10 * digVal a + digVal b, rest) else none
  | _ => none

/-- Read exactly four digit characters. -/
def take4 : List Char → Option (Nat × List Char)
  | a :: b :: c :: d :: rest =>
    if isDig a && isDig b && isDig c && isDig d then
      some (1000 * digVal a + 100 * digVal b + 10 * digVal c + digVal d, rest)
    else none
  | _ => none

/-- Parse the fractional-second part: '.' followed by exactly 3 or 6 digits,
returning microseconds. -/
def parseFrac : List Char → Option (Nat × List Char)
  | '.' :: rest =>
    match rest with
    | a :: b :: c :: d :: e :: f :: more =>
      if isDig a && isDig b && isDig c && isDig d && isDig e && isDig f then
        some (100000 * digVal a + 10000 * digVal b + 1000 * digVal c +
              100 * digVal d + 10 * digVal e + digVal f, more)
      else if isDig a && isDig b && isDig c then
        some ((100 * digVal a + 10 * digVal b + digVal c) * 1000, d :: e :: f :: more)
      else none
    | a :: b :: c :: more =>
      if isDig a && isDig b && isDig c then
        some ((100 * digVal a + 10 * digVal b + digVal c) * 1000, more)
      else none
    | _ => none
  | _ => none

/-- Parse a UTC offset suffix ±HH:MM, returned in minutes. -/
def parseOffset : List Char → Option (Option Int × List Char)
  | [] => some (none, [])
  | '+' :: rest => do
    let (h, rest) ← take2 rest
    match rest with
    | ':' :: rest => do
      let (m, rest) ← take2 rest
      if h < 24 && m < 60 then some (some ((h * 60 + m : Nat) : Int), rest) else none
    | _ => none
  | '-' :: rest => do
    let (h, rest) ← take2 rest
    match rest with
    | ':' :: rest => do
      let (m, rest) ← take2 rest
      if h < 24 && m < 60 then some (some (-((h * 60 + m : Nat) : Int)), rest) else none
    | _ => none
  | _ => none

/-- Parse the time-of-day part HH:MM[:SS[.fff[fff]]] with an optional offset. -/
def parseClock (cs : List Char) : Option Timestamp := do
  let (h, rest) ← take2 cs
  match rest with
  | ':' :: rest => do
    let (mi, rest) ← take2 rest
    let (sec, micro, rest) ←
      match rest with
      | ':' :: rest2 =>
        (do
          let (s, rest3) ← take2 rest2
          match parseFrac rest3 with
          | some (us, rest4) => some (s, us, rest4)
          | none => some (s, 0, rest3) : Option (Nat × Nat × List Char))
      | _ => some (0, 0, rest)
    let (off, rest) ← parseOffset rest
    if rest = [] && h < 24 && mi < 60 && sec < 60 then
      some ⟨0, 0, 0, h, mi, sec, micro, off⟩
    else none
  | _ => none

/-- Model of datetime.fromisoformat: a YYYY-MM-DD date, optionally followed by
a one-character separator and a time of day with optional UTC offset.
Returns none where Python raises ValueError. -/
def fromisoformat (s : String) : Option Timestamp := do
  let cs := s.toList
  let (y, rest) ← take4 cs
  match rest with
  | '-' :: rest => do
    let (mo, rest) ← take2 rest
    match rest with
    | '-' :: rest => do
      let (d, rest) ← take2 rest
      if 1 ≤ y && 1 ≤ mo && mo ≤ 12 && 1 ≤ d && d ≤ daysInMonth y mo then
        match rest with
        | [] => some ⟨y, mo, d, 0, 0, 0, 0, none⟩
        | _ :: timePart => do
          let t ← parseClock timePart
          some { t with year := y, month := mo, day := d }
      else none
    | _ => none
  | _ => none

/-- One row produced by csv.DictReader: a mapping from column name to string
value, modelled as an association list. -/
structure Row where
  fields : List (String × String)
deriving DecidableEq, Repr

/-- Dictionary lookup on a row (row[k]); none models KeyError. -/
def Row.get (r : Row) (k : String) : Option String :=
  r.fields.lookup k

/-- The typed values appended for one row by the parse loop. -/
structure ParsedRow where
  time : Timestamp
  allocMB : ℚ
  heapAllocMB : ℚ
  goroutines : Int
  numGC : Int
  pauseMS : ℚ
deriving DecidableEq, Repr

/-- One iteration of the parse loop (plot_metrics.py lines 23-31): look up and
convert the six columns of a row; none models the uncaught KeyError /
ValueError that aborts the run. -/
def parseRow (row : Row) : Option ParsedRow := do
  let t ← (row.get "time").bind fromisoformat
  let a ← (row.get "alloc").bind pyInt
  let h ← (row.get "heap_alloc").bind pyInt
  let g ← (row.get "num_goroutine").bind pyInt
  let n ← (row.get "num_gc").bind pyInt
  let p ← (row.get "pause_total_ns").bind pyInt
  pure { time := t
         allocMB := (a : ℚ) / (1024 * 1024)
         heapAllocMB := (h : ℚ) / (1024 * 1024)
         goroutines := g
         numGC := n
         pauseMS := (p : ℚ) / 1000000 }

/-- The six parallel lists built by the parse loop, with the source's names. -/
structure Series where
  times : List Timestamp
  alloc : List ℚ
  heap_alloc : List ℚ
  goroutines : List Int
  num_gc : List Int
  pause_ns : List ℚ
deriving DecidableEq, Repr

/-- The empty series (the six lists initialised at lines 14-19). -/
def Series.empty : Series := ⟨[], [], [], [], [], []⟩

/-- Prepend one parsed row's values to the front of each list. -/
def Series.cons (p : ParsedRow) (s : Series) : Series :=
  ⟨p.time :: s.times, p.allocMB :: s.alloc, p.heapAllocMB :: s.heap_alloc,
   p.goroutines :: s.goroutines, p.numGC :: s.num_gc, p.pauseMS :: s.pause_ns⟩

/-- The parse loop over all rows: appends each row's values in row order;
none models the exception aborting the run at the first bad row. -/
def parseLoop : List Row → Option Series
  | [] => some Series.empty
  | r :: rs => do
    let p ← parseRow r
    let s ← parseLoop rs
    pure (Series.cons p s)

/-- One plotted line of a chart: the data of a plt.plot call. -/
structure PlotLine where
  xs : List Timestamp
  ys : List ℚ
  label : String
  /-- The alpha keyword argument, when given. -/
  alpha : Option ℚ
deriving DecidableEq, Repr

/-- The state of one matplotlib figure as the script builds it. -/
structure Chart where
  figsize : ℚ × ℚ
  lines : List PlotLine
  xlabel : Option String
  ylabel : Option String
  title : Option String
  legend : Bool
  tightLayout : Bool
deriving DecidableEq, Repr

/-- plt.figure(figsize=sz): a fresh figure. -/
def figure (sz : ℚ × ℚ) : Chart :=
  ⟨sz, [], none, none, none, false, false⟩

/-- plt.plot(xs, ys, label, alpha): append a line to the current figure. -/
def Chart.plot (c : Chart) (xs : List Timestamp) (ys : List ℚ)
    (lab : String) (alpha : Option ℚ) : Chart :=
  { c with lines := c.lines ++ [⟨xs, ys, lab, alpha⟩] }

/-- plt.xlabel. -/
def Chart.setXlabel (c : Chart) (s : String) : Chart := { c with xlabel := some s }

/-- plt.ylabel. -/
def Chart.setYlabel (c : Chart) (s : String) : Chart := { c with ylabel := some s }

/-- plt.title. -/
def Chart.setTitle (c : Chart) (s : String) : Chart := { c with title := some s }

/-- plt.legend(). -/
def Chart.setLegend (c : Chart) : Chart := { c with legend := true }

/-- plt.tight_layout(). -/
def Chart.setTight (c : Chart) : Chart := { c with tightLayout := true }

/-- The Alloc / HeapAlloc figure (lines 37-44). -/
def allocFig (s : Series) : Chart :=
  ((((((figure (12, 6)).plot s.times s.alloc "Alloc (MB)" none).plot
      s.times s.heap_alloc "HeapAlloc (MB)" (some (8 / 10))).setXlabel
      "Time").setYlabel "MB").setTitle "Alloc / HeapAlloc over time").setLegend.setTight

/-- The Goroutines figure (lines 51-56). -/
def gorFig (s : Series) : Chart :=
  (((((figure (12, 4)).plot s.times (s.goroutines.map (fun n => (n : ℚ)))
      "Goroutines" none).setXlabel "Time").setYlabel
      "Count").setTitle "Goroutines over time").setTight

/-- The NumGC figure (lines 63-68). -/
def gcFig (s : Series) : Chart :=
  (((((figure (12, 4)).plot s.times (s.num_gc.map (fun n => (n : ℚ)))
      "NumGC" none).setXlabel "Time").setYlabel
      "Count").setTitle "NumGC over time").setTight

/-- The GC PauseTotal figure (lines 75-80). -/
def pauseFig (s : Series) : Chart :=
  (((((figure (12, 4)).plot s.times s.pause_ns
      "PauseTotal (ms)" none).setXlabel "Time").setYlabel
      "ms").setTitle "GC PauseTotal over time").setTight

/-- Observable actions of the process: figure creation, file save, figure
close, and a line printed to standard output. -/
inductive Ev
  | newFigure
  | savefig (path : String) (c : Chart)
  | closeFig
  | stdout (line : String)
deriving DecidableEq, Repr

/-- Model of os.path.join for the arguments the script uses: an absolute
second component wins; otherwise the components are joined with a slash
unless the first already ends in one. -/
def osPathJoin (a b : String) : String :=
  match b.toList with
  | '/' :: _ => b
  | _ =>
    match a.toList with
    | [] => b
    | cs => if cs.getLast? = some '/' then a ++ b else a ++ "/" ++ b

/-- The fixed input path (line 8). -/
def CSV_PATH : String := "bench_sustained_metrics_round2.csv"

/-- The output directory (line 34). -/
def OUT_DIR : String := "."

/-- The events of one render block: build the figure, save it, close it,
print the confirmation line (e.g. lines 37-48 for the allocation chart). -/
def renderBlock (name : String) (c : Chart) : List Ev :=
  [Ev.newFigure, Ev.savefig (osPathJoin OUT_DIR name) c, Ev.closeFig,
   Ev.stdout ("wrote " ++ osPathJoin OUT_DIR name)]

/-- The events of the whole render phase (lines 36-84), in source order. -/
def renderEvents (s : Series) : List Ev :=
  renderBlock "bench_alloc.png" (allocFig s) ++
  renderBlock "bench_goroutines.png" (gorFig s) ++
  renderBlock "bench_numgc.png" (gcFig s) ++
  renderBlock "bench_pause.png" (pauseFig s)

/-- How the process terminates. -/
inductive Outcome
  | success
  | missingInput
  | parseError
deriving DecidableEq, Repr

/-- The process exit code: 0 on success, 1 for the explicit SystemExit(1),
1 for an uncaught exception (CPython's exit code for a traceback). -/
def exitCode : Outcome → Nat
  | Outcome.success => 0
  | Outcome.missingInput => 1
  | Outcome.parseError => 1

/-- The whole script, as a function of the content of CSV_PATH (none when the
file does not exist): the emitted event trace and the outcome. -/
def runScript (csv : Option (List Row)) : List Ev × Outcome :=
  match csv with
  | none => ([Ev.stdout ("CSV not found: " ++ CSV_PATH)], Outcome.missingInput)
  | some rows =>
    match parseLoop rows with
    | none => ([], Outcome.parseError)
    | some s => (renderEvents s, Outcome.success)

/-- Paths of the save events of a trace, in order. -/
def writePaths (evs : List Ev) : List String :=
  evs.filterMap (fun e => match e with | Ev.savefig p _ => some p | _ => none)

/-- The chart saved to a given path by a trace, in order of saving. -/
def chartsAt (evs : List Ev) (p : String) : List Chart :=
  evs.filterMap (fun e =>
    match e with
    | Ev.savefig q c => if q = p then some c else none
    | _ => none)

/-- Lines printed to standard output by a trace, in order. -/
def stdoutLines (evs : List Ev) : List String :=
  evs.filterMap (fun e => match e with | Ev.stdout l => some l | _ => none)

/-- Replay the file-writing effect of one event on a directory state (a map
from path to saved file content): savefig creates or overwrites. -/
def applyEv (fs : String → Option Chart) : Ev → (String → Option Chart)
  | Ev.savefig p c => fun q => if q = p then some c else fs q
  | _ => fs

/-- Replay a whole trace on a directory state. -/
def applyEvents (evs : List Ev) (fs : String → Option Chart) :
    String → Option Chart :=
  evs.foldl applyEv fs

/-- Cut a raw file text into lines as Python's line iteration does: split on
newline, with no empty final line after a trailing newline. -/
def splitOnChar (sep : Char) : List Char → List (List Char)
  | [] => [[]]
  | c :: rest =>
    match splitOnChar sep rest with
    | [] => [[c]]
    | g :: gs => if c = sep then [] :: g :: gs else (c :: g) :: gs

/-- File lines of a text (see splitOnChar). -/
def csvLines (text : String) : List String :=
  let ps := (splitOnChar '\n' text.toList).map (fun cs => String.mk cs)
  match ps.getLast? with
  | some "" => ps.dropLast
  | _ => ps

/-- Model of csv.DictReader over the file text: the first line names the
columns; every following non-empty line becomes a row mapping each column
name to the corresponding comma-separated value (empty rows are skipped, as
DictReader does; field quoting is not modelled). -/
def dictReader (text : String) : List Row :=
  match csvLines text with
  | [] => []
  | header :: rest =>
    let keys := (splitOnChar ',' header.toList).map (fun cs => String.mk cs)
    (rest.filter (fun l => l ≠ "")).map
      (fun l => ⟨keys.zip ((splitOnChar ',' l.toList).map (fun cs => String.mk cs))⟩)

lemma parseLoop_cons_eq (r : Row) (rs : List Row) :
    parseLoop (r :: rs) =
      (parseRow r).bind (fun p => (parseLoop rs).bind (fun s => some (Series.cons p s))) := by
  rfl

/-- Lengths of all six lists built by the parse loop equal the row count. -/
lemma parseLoop_lengths : ∀ {rows : List Row} {s : Series},
    parseLoop rows = some s →
    s.times.length = rows.length ∧ s.alloc.length = rows.length ∧
    s.heap_alloc.length = rows.length ∧ s.goroutines.length = rows.length ∧
    s.num_gc.length = rows.length ∧ s.pause_ns.length = rows.length := by
  intro rows
  induction rows with
  | nil =>
    intro s h
    simp only [parseLoop, Option.some.injEq] at h
    subst h
    simp [Series.empty]
  | cons r rs ih =>
    intro s h
    rw [parseLoop_cons_eq] at h
    cases hp : parseRow r with
    | none => simp [hp] at h
    | some p =>
      cases hs : parseLoop rs with
      | none => simp [hp, hs] at h
      | some s0 =>
        simp only [hp, hs, Option.some_bind, Option.some.injEq] at h
        subst h
        obtain ⟨h1, h2, h3, h4, h5, h6⟩ := ih hs
        simp [Series.cons, h1, h2, h3, h4, h5, h6]

/-- Index alignment: the value at index i of each list comes from row i. -/
lemma parseLoop_get : ∀ {rows : List Row} {s : Series},
    parseLoop rows = some s →
    ∀ i r, rows.get? i = some r →
    ∃ p, parseRow r = some p ∧
      s.times.get? i = some p.time ∧ s.alloc.get? i = some p.allocMB ∧
      s.heap_alloc.get? i = some p.heapAllocMB ∧
      s.goroutines.get? i = some p.goroutines ∧
      s.num_gc.get? i = some p.numGC ∧ s.pause_ns.get? i = some p.pauseMS := by
  intro rows
  induction rows with
  | nil =>
    intro s h i r hr
    simp at hr
  | cons r0 rs ih =>
    intro s h i r hr
    rw [parseLoop_cons_eq] at h
    cases hp : parseRow r0 with
    | none => simp [hp] at h
    | some p =>
      cases hs : parseLoop rs with
      | none => simp [hp, hs] at h
      | some s0 =>
        simp only [hp, hs, Option.some_bind, Option.some.injEq] at h
        subst h
        cases i with
        | zero =>
          simp only [List.get?] at hr
          cases hr
          exact ⟨p, hp, by simp [Series.cons]⟩
        | succ j =>
          simp only [List.get?] at hr
          obtain ⟨q, hq, hrest⟩ := ih hs j r hr
          exact ⟨q, hq, by simpa [Series.cons] using hrest⟩

/-- C1: For every well-formed input of N rows (N ≥ 1) — here, an input on
which the parse loop succeeds — the derived sequences (times, allocMB,
heapAllocMB, goroutine counts, numGC, pauseMS) all have length exactly N, and
the element at each index i of every sequence is derived from input row i
(insertion order, never re-sorted). -/
theorem c1_parse_loop_length_and_order (rows : List Row) (s : Series)
    (_hN : 1 ≤ rows.length) (h : parseLoop rows = some s) :
    (s.times.length = rows.length ∧ s.alloc.length = rows.length ∧
     s.heap_alloc.length = rows.length ∧ s.goroutines.length = rows.length ∧
     s.num_gc.length = rows.length ∧ s.pause_ns.length = rows.length) ∧
    (∀ i r, rows.get? i = some r →
      ∃ p, parseRow r = some p ∧
        s.times.get? i = some p.time ∧ s.alloc.get? i = some p.allocMB ∧
        s.heap_alloc.get? i = some p.heapAllocMB ∧
        s.goroutines.get? i = some p.goroutines ∧
        s.num_gc.get? i = some p.numGC ∧ s.pause_ns.get? i = some p.pauseMS) :=
  ⟨parseLoop_lengths h, parseLoop_get h⟩

/-- Sample input row with all six columns numeric and a full RFC3339 time. -/
def row1 : Row := ⟨[("time", "2025-01-01T00:00:01+00:00"), ("alloc", "1048576"),
  ("heap_alloc", "2097152"), ("num_goroutine", "5"), ("num_gc", "2"),
  ("pause_total_ns", "1000000")]⟩

/-- Sample input row with zero values and a date-only time. -/
def row2 : Row := ⟨[("time", "2025-01-01"), ("alloc", "0"),
  ("heap_alloc", "0"), ("num_goroutine", "0"), ("num_gc", "0"),
  ("pause_total_ns", "0")]⟩

/-- Sample row whose alloc column is the non-numeric string abc. -/
def rowBad : Row := ⟨[("time", "2025-01-01T00:00:02+00:00"), ("alloc", "abc"),
  ("heap_alloc", "0"), ("num_goroutine", "0"), ("num_gc", "0"),
  ("pause_total_ns", "0")]⟩

/-- The parsed values of row1. -/
def pr1 : ParsedRow := ⟨⟨2025, 1, 1, 0, 0, 1, 0, some 0⟩, 1, 2, 5, 2, 1⟩

/-- The parsed values of row2. -/
def pr2 : ParsedRow := ⟨⟨2025, 1, 1, 0, 0, 0, 0, none⟩, 0, 0, 0, 0, 0⟩

lemma parseRow_row1 : parseRow row1 = some pr1 := by
  have h1 : (row1.get "time").bind fromisoformat = some ⟨2025, 1, 1, 0, 0, 1, 0, some 0⟩ := by
    decide
  have h2 : (row1.get "alloc").bind pyInt = some 1048576 := by decide
  have h3 : (row1.get "heap_alloc").bind pyInt = some 2097152 := by decide
  have h4 : (row1.get "num_goroutine").bind pyInt = some 5 := by decide
  have h5 : (row1.get "num_gc").bind pyInt = some 2 := by decide
  have h6 : (row1.get "pause_total_ns").bind pyInt = some 1000000 := by decide
  simp [parseRow, h1, h2, h3, h4, h5, h6, pr1]
  norm_num

lemma parseRow_row2 : parseRow row2 = some pr2 := by
  have h1 : (row2.get "time").bind fromisoformat = some ⟨2025, 1, 1, 0, 0, 0, 0, none⟩ := by
    decide
  have h2 : (row2.get "alloc").bind pyInt = some 0 := by decide
  have h3 : (row2.get "heap_alloc").bind pyInt = some 0 := by decide
  have h4 : (row2.get "num_goroutine").bind pyInt = some 0 := by decide
  have h5 : (row2.get "num_gc").bind pyInt = some 0 := by decide
  have h6 : (row2.get "pause_total_ns").bind pyInt = some 0 := by decide
  simp [parseRow, h1, h2, h3, h4, h5, h6, pr2]

/-- The series the parse loop builds from the sample rows row1, row2. -/
def sampleSeries : Series :=
  ⟨[⟨2025, 1, 1, 0, 0, 1, 0, some 0⟩, ⟨2025, 1, 1, 0, 0, 0, 0, none⟩],
   [1, 0], [2, 0], [5, 0], [2, 0], [1, 0]⟩

lemma parseLoop_sample : parseLoop [row1, row2] = some sampleSeries := by
  rw [parseLoop_cons_eq, parseRow_row1, parseLoop_cons_eq, parseRow_row2]
  rfl

/-- C1 applied to the concrete two-row sample input. -/
theorem c1_witness :
    1 ≤ ([row1, row2] : List Row).length ∧
    ((sampleSeries.times.length = ([row1, row2] : List Row).length ∧
      sampleSeries.alloc.length = ([row1, row2] : List Row).length ∧
      sampleSeries.heap_alloc.length = ([row1, row2] : List Row).length ∧
      sampleSeries.goroutines.length = ([row1, row2] : List Row).length ∧
      sampleSeries.num_gc.length = ([row1, row2] : List Row).length ∧
      sampleSeries.pause_ns.length = ([row1, row2] : List Row).length) ∧
     (∀ i r, ([row1, row2] : List Row).get? i = some r →
       ∃ p, parseRow r = some p ∧
         sampleSeries.times.get? i = some p.time ∧
         sampleSeries.alloc.get? i = some p.allocMB ∧
         sampleSeries.heap_alloc.get? i = some p.heapAllocMB ∧
         sampleSeries.goroutines.get? i = some p.goroutines ∧
         sampleSeries.num_gc.get? i = some p.numGC ∧
         sampleSeries.pause_ns.get? i = some p.pauseMS)) :=
  ⟨by simp,
   c1_parse_loop_length_and_order [row1, row2] sampleSeries (by simp) parseLoop_sample⟩

/-- C2: If the input path does not exist, the process prints exactly
CSV not found: <path> to standard output, terminates with a non-zero exit
code, and creates or modifies no files; if the path exists and every row
parses, the process runs to completion and exits 0. -/
theorem c2_missing_csv_and_clean_run (rows : List Row) (s : Series)
    (h : parseLoop rows = some s) :
    (runScript none).1 = [Ev.stdout ("CSV not found: " ++ CSV_PATH)] ∧
    (runScript none).2 = Outcome.missingInput ∧
    exitCode (runScript none).2 ≠ 0 ∧
    (∀ fs p, applyEvents (runScript none).1 fs p = fs p) ∧
    (runScript (some rows)).2 = Outcome.success ∧
    exitCode (runScript (some rows)).2 = 0 := by
  refine ⟨rfl, rfl, by decide, fun fs p => rfl, ?_, ?_⟩
  · simp [runScript, h]
  · simp [runScript, h, exitCode]

/-- C2 applied to the concrete two-row sample input. -/
theorem c2_witness :
    (runScript none).1 = [Ev.stdout ("CSV not found: " ++ CSV_PATH)] ∧
    (runScript none).2 = Outcome.missingInput ∧
    exitCode (runScript none).2 ≠ 0 ∧
    (∀ fs p, applyEvents (runScript none).1 fs p = fs p) ∧
    (runScript (some [row1, row2])).2 = Outcome.success ∧
    exitCode (runScript (some [row1, row2])).2 = 0 :=
  c2_missing_csv_and_clean_run [row1, row2] sampleSeries parseLoop_sample

/-- The five columns the parse loop converts with int(). -/
def numericCols : List String :=
  ["alloc", "heap_alloc", "num_goroutine", "num_gc", "pause_total_ns"]

/-- A row on which one of the numeric columns is absent or non-numeric. -/
def badNumeric (r : Row) : Prop :=
  ∃ k ∈ numericCols, (r.get k).bind pyInt = none

/-- Decomposition of a successful parseRow into its six column reads. -/
lemma parseRow_some_parts {r : Row} {p : ParsedRow} (h : parseRow r = some p) :
    ∃ t, (r.get "time").bind fromisoformat = some t ∧
    ∃ a, (r.get "alloc").bind pyInt = some a ∧
    ∃ b, (r.get "heap_alloc").bind pyInt = some b ∧
    ∃ g, (r.get "num_goroutine").bind pyInt = some g ∧
    ∃ n, (r.get "num_gc").bind pyInt = some n ∧
    ∃ q, (r.get "pause_total_ns").bind pyInt = some q ∧
    p = ⟨t, (a : ℚ) / (1024 * 1024), (b : ℚ) / (1024 * 1024), g, n,
         (q : ℚ) / 1000000⟩ := by
  simp only [parseRow, bind, Option.bind_eq_some, Option.pure_def,
    Option.some.injEq] at h
  obtain ⟨t, ⟨ts, hts, htf⟩, a, ⟨as0, has, hai⟩, b, ⟨bs, hbs, hbi⟩,
    g, ⟨gs, hgs, hgi⟩, n, ⟨ns, hns, hni⟩, q, ⟨qs, hqs, hqi⟩, hp⟩ := h
  refine ⟨t, ?_, a, ?_, b, ?_, g, ?_, n, ?_, q, ?_, hp.symm⟩
  · rw [hts]; exact htf
  · rw [has]; exact hai
  · rw [hbs]; exact hbi
  · rw [hgs]; exact hgi
  · rw [hns]; exact hni
  · rw [hqs]; exact hqi

/-- A bad numeric column makes the whole row conversion raise. -/
lemma parseRow_eq_none_of_bad {r : Row} (h : badNumeric r) : parseRow r = none := by
  obtain ⟨k, hk, hbad⟩ := h
  cases hp : parseRow r with
  | none => rfl
  | some p =>
    obtain ⟨t, ht, a, ha, b, hb, g, hg, n, hn, q, hq, _⟩ := parseRow_some_parts hp
    simp only [numericCols, List.mem_cons, List.not_mem_nil, or_false] at hk
    rcases hk with rfl | rfl | rfl | rfl | rfl
    · rw [ha] at hbad; cases hbad
    · rw [hb] at hbad; cases hbad
    · rw [hg] at hbad; cases hbad
    · rw [hn] at hbad; cases hbad
    · rw [hq] at hbad; cases hbad

/-- A row that raises makes the whole parse loop raise. -/
lemma parseLoop_none_of_mem {rows : List Row} {r : Row}
    (hmem : r ∈ rows) (hr : parseRow r = none) : parseLoop rows = none := by
  induction rows with
  | nil => cases hmem
  | cons r0 rs ih =>
    rw [parseLoop_cons_eq]
    rcases List.mem_cons.mp hmem with rfl | hmem2
    · rw [hr]; rfl
    · cases hp : parseRow r0 with
      | none => rfl
      | some p => rw [ih hmem2]; rfl

/-- C3: An input containing a row with an absent or non-numeric numeric field
aborts with a conversion error before any rendering begins: no save events,
no output lines, no file created or modified, non-zero exit. A re-run on the
same input fails identically because the run is a pure function of the
input. -/
theorem c3_bad_numeric_aborts (rows : List Row) (r : Row)
    (hmem : r ∈ rows) (hbad : badNumeric r) :
    runScript (some rows) = ([], Outcome.parseError) ∧
    writePaths (runScript (some rows)).1 = [] ∧
    stdoutLines (runScript (some rows)).1 = [] ∧
    (∀ fs p, applyEvents (runScript (some rows)).1 fs p = fs p) ∧
    exitCode (runScript (some rows)).2 ≠ 0 := by
  have hnone := parseLoop_none_of_mem hmem (parseRow_eq_none_of_bad hbad)
  refine ⟨?_, ?_, ?_, ?_, ?_⟩ <;>
    simp [runScript, hnone, writePaths, stdoutLines, exitCode, applyEvents]

/-- C3 applied to a concrete input whose second row has alloc = abc. -/
theorem c3_witness :
    runScript (some [row1, rowBad]) = ([], Outcome.parseError) ∧
    writePaths (runScript (some [row1, rowBad])).1 = [] ∧
    stdoutLines (runScript (some [row1, rowBad])).1 = [] ∧
    (∀ fs p, applyEvents (runScript (some [row1, rowBad])).1 fs p = fs p) ∧
    exitCode (runScript (some [row1, rowBad])).2 ≠ 0 :=
  c3_bad_numeric_aborts [row1, rowBad] rowBad (by simp)
    ⟨"alloc", by decide, by decide⟩

/-- C4: allocMB and heapAllocMB are the integer column values divided exactly
by 1,048,576 (the script divides by 1024.0 * 1024.0). -/
theorem c4_mebibyte_conversion (row : Row) (p : ParsedRow)
    (h : parseRow row = some p) :
    (∀ a : Int, (row.get "alloc").bind pyInt = some a →
      p.allocMB = (a : ℚ) / 1048576) ∧
    (∀ b : Int, (row.get "heap_alloc").bind pyInt = some b →
      p.heapAllocMB = (b : ℚ) / 1048576) := by
  obtain ⟨t, ht, a, ha, b, hb, g, hg, n, hn, q, hq, hp⟩ := parseRow_some_parts h
  subst hp
  constructor
  · intro a2 ha2
    rw [ha, Option.some.injEq] at ha2
    subst ha2
    show (a : ℚ) / (1024 * 1024) = (a : ℚ) / 1048576
    norm_num
  · intro b2 hb2
    rw [hb, Option.some.injEq] at hb2
    subst hb2
    show (b : ℚ) / (1024 * 1024) = (b : ℚ) / 1048576
    norm_num

/-- C4 at the concrete inputs alloc = 1048576 (giving 1) and alloc = 0
(giving 0). -/
theorem c4_witness :
    parseRow row1 = some pr1 ∧
    pr1.allocMB = ((1048576 : Int) : ℚ) / 1048576 ∧ pr1.allocMB = 1 ∧
    pr1.heapAllocMB = ((2097152 : Int) : ℚ) / 1048576 ∧ pr1.heapAllocMB = 2 ∧
    parseRow row2 = some pr2 ∧
    pr2.allocMB = ((0 : Int) : ℚ) / 1048576 ∧ pr2.allocMB = 0 :=
  ⟨parseRow_row1,
   (c4_mebibyte_conversion row1 pr1 parseRow_row1).1 1048576 (by decide),
   by norm_num [pr1],
   (c4_mebibyte_conversion row1 pr1 parseRow_row1).2 2097152 (by decide),
   by norm_num [pr1],
   parseRow_row2,
   (c4_mebibyte_conversion row2 pr2 parseRow_row2).1 0 (by decide),
   by norm_num [pr2]⟩

/-- C5: pauseMS is the integer pause_total_ns column divided exactly by
1,000,000 (the script divides by 1e6). -/
theorem c5_millisecond_conversion (row : Row) (p : ParsedRow)
    (h : parseRow row = some p) :
    ∀ n : Int, (row.get "pause_total_ns").bind pyInt = some n →
      p.pauseMS = (n : ℚ) / 1000000 := by
  obtain ⟨t, ht, a, ha, b, hb, g, hg, n, hn, q, hq, hp⟩ := parseRow_some_parts h
  subst hp
  intro n2 hn2
  rw [hq, Option.some.injEq] at hn2
  subst hn2
  rfl

/-- C5 at the concrete input pause_total_ns = 1000000, giving 1. -/
theorem c5_witness :
    parseRow row1 = some pr1 ∧
    pr1.pauseMS = ((1000000 : Int) : ℚ) / 1000000 ∧ pr1.pauseMS = 1 :=
  ⟨parseRow_row1,
   c5_millisecond_conversion row1 pr1 parseRow_row1 1000000 (by decide),
   by norm_num [pr1]⟩

lemma runScript_some_eq {rows : List Row} {s : Series}
    (h : parseLoop rows = some s) :
    runScript (some rows) = (renderEvents s, Outcome.success) := by
  simp [runScript, h]

/-- The render phase's trace, with the joined paths evaluated. -/
lemma renderEvents_eq (s : Series) :
    renderEvents s =
      [Ev.newFigure, Ev.savefig "./bench_alloc.png" (allocFig s), Ev.closeFig,
       Ev.stdout "wrote ./bench_alloc.png",
       Ev.newFigure, Ev.savefig "./bench_goroutines.png" (gorFig s), Ev.closeFig,
       Ev.stdout "wrote ./bench_goroutines.png",
       Ev.newFigure, Ev.savefig "./bench_numgc.png" (gcFig s), Ev.closeFig,
       Ev.stdout "wrote ./bench_numgc.png",
       Ev.newFigure, Ev.savefig "./bench_pause.png" (pauseFig s), Ev.closeFig,
       Ev.stdout "wrote ./bench_pause.png"] := by
  have h1 : osPathJoin OUT_DIR "bench_alloc.png" = "./bench_alloc.png" := by decide
  have h2 : osPathJoin OUT_DIR "bench_goroutines.png" = "./bench_goroutines.png" := by
    decide
  have h3 : osPathJoin OUT_DIR "bench_numgc.png" = "./bench_numgc.png" := by decide
  have h4 : osPathJoin OUT_DIR "bench_pause.png" = "./bench_pause.png" := by decide
  have w1 : "wrote " ++ "./bench_alloc.png" = "wrote ./bench_alloc.png" := by decide
  have w2 : "wrote " ++ "./bench_goroutines.png" = "wrote ./bench_goroutines.png" := by
    decide
  have w3 : "wrote " ++ "./bench_numgc.png" = "wrote ./bench_numgc.png" := by decide
  have w4 : "wrote " ++ "./bench_pause.png" = "wrote ./bench_pause.png" := by decide
  simp [renderEvents, renderBlock, h1, h2, h3, h4, w1, w2, w3, w4]

/-- C6: On every well-formed input the run saves exactly four files, named
bench_alloc.png, bench_goroutines.png, bench_numgc.png, bench_pause.png in
the current working directory, in that order; prints exactly the four
corresponding wrote lines; the saves create or overwrite those paths in any
prior directory state; and the run succeeds. -/
theorem c6_four_files_four_lines (rows : List Row) (s : Series)
    (h : parseLoop rows = some s) :
    writePaths (runScript (some rows)).1 =
      ["./bench_alloc.png", "./bench_goroutines.png", "./bench_numgc.png",
       "./bench_pause.png"] ∧
    stdoutLines (runScript (some rows)).1 =
      ["wrote ./bench_alloc.png", "wrote ./bench_goroutines.png",
       "wrote ./bench_numgc.png", "wrote ./bench_pause.png"] ∧
    (∀ fs, applyEvents (runScript (some rows)).1 fs "./bench_alloc.png" =
        some (allocFig s) ∧
      applyEvents (runScript (some rows)).1 fs "./bench_goroutines.png" =
        some (gorFig s) ∧
      applyEvents (runScript (some rows)).1 fs "./bench_numgc.png" =
        some (gcFig s) ∧
      applyEvents (runScript (some rows)).1 fs "./bench_pause.png" =
        some (pauseFig s)) ∧
    (runScript (some rows)).2 = Outcome.success := by
  rw [runScript_some_eq h]
  refine ⟨?_, ?_, ?_, rfl⟩
  · rw [renderEvents_eq]; rfl
  · rw [renderEvents_eq]; rfl
  · intro fs
    rw [renderEvents_eq]
    refine ⟨?_, ?_, ?_, ?_⟩ <;> simp [applyEvents, applyEv]

/-- C6 applied to the concrete two-row sample input. -/
theorem c6_witness :
    writePaths (runScript (some [row1, row2])).1 =
      ["./bench_alloc.png", "./bench_goroutines.png", "./bench_numgc.png",
       "./bench_pause.png"] ∧
    stdoutLines (runScript (some [row1, row2])).1 =
      ["wrote ./bench_alloc.png", "wrote ./bench_goroutines.png",
       "wrote ./bench_numgc.png", "wrote ./bench_pause.png"] ∧
    (∀ fs, applyEvents (runScript (some [row1, row2])).1 fs "./bench_alloc.png" =
        some (allocFig sampleSeries) ∧
      applyEvents (runScript (some [row1, row2])).1 fs "./bench_goroutines.png" =
        some (gorFig sampleSeries) ∧
      applyEvents (runScript (some [row1, row2])).1 fs "./bench_numgc.png" =
        some (gcFig sampleSeries) ∧
      applyEvents (runScript (some [row1, row2])).1 fs "./bench_pause.png" =
        some (pauseFig sampleSeries)) ∧
    (runScript (some [row1, row2])).2 = Outcome.success :=
  c6_four_files_four_lines [row1, row2] sampleSeries parseLoop_sample

/-- C7: The chart saved to bench_alloc.png holds exactly two overlaid lines,
allocMB and heapAllocMB against the parsed times, with a legend, x-axis label
Time, y-axis label MB, and title Alloc / HeapAlloc over time. -/
theorem c7_alloc_chart_content (rows : List Row) (s : Series)
    (h : parseLoop rows = some s) :
    chartsAt (runScript (some rows)).1 "./bench_alloc.png" = [allocFig s] ∧
    (allocFig s).lines =
      [⟨s.times, s.alloc, "Alloc (MB)", none⟩,
       ⟨s.times, s.heap_alloc, "HeapAlloc (MB)", some (8 / 10)⟩] ∧
    (allocFig s).legend = true ∧
    (allocFig s).xlabel = some "Time" ∧
    (allocFig s).ylabel = some "MB" ∧
    (allocFig s).title = some "Alloc / HeapAlloc over time" := by
  rw [runScript_some_eq h]
  refine ⟨?_, rfl, rfl, rfl, rfl, rfl⟩
  show chartsAt (renderEvents s) "./bench_alloc.png" = [allocFig s]
  rw [renderEvents_eq]
  simp [chartsAt]

/-- C7 applied to the concrete two-row sample input. -/
theorem c7_witness :
    chartsAt (runScript (some [row1, row2])).1 "./bench_alloc.png" =
      [allocFig sampleSeries] ∧
    (allocFig sampleSeries).lines =
      [⟨sampleSeries.times, sampleSeries.alloc, "Alloc (MB)", none⟩,
       ⟨sampleSeries.times, sampleSeries.heap_alloc, "HeapAlloc (MB)",
        some (8 / 10)⟩] ∧
    (allocFig sampleSeries).legend = true ∧
    (allocFig sampleSeries).xlabel = some "Time" ∧
    (allocFig sampleSeries).ylabel = some "MB" ∧
    (allocFig sampleSeries).title = some "Alloc / HeapAlloc over time" :=
  c7_alloc_chart_content [row1, row2] sampleSeries parseLoop_sample

/-- C10: On every successful run the trace is exactly: build, save, close and
confirm bench_alloc.png; then bench_goroutines.png; then bench_numgc.png;
then bench_pause.png — so each file's save and figure close precede the next
chart's construction, and the four wrote lines appear in that fixed order. -/
theorem c10_fixed_render_order (rows : List Row) (s : Series)
    (h : parseLoop rows = some s) :
    (runScript (some rows)).1 =
      [Ev.newFigure, Ev.savefig "./bench_alloc.png" (allocFig s), Ev.closeFig,
       Ev.stdout "wrote ./bench_alloc.png",
       Ev.newFigure, Ev.savefig "./bench_goroutines.png" (gorFig s), Ev.closeFig,
       Ev.stdout "wrote ./bench_goroutines.png",
       Ev.newFigure, Ev.savefig "./bench_numgc.png" (gcFig s), Ev.closeFig,
       Ev.stdout "wrote ./bench_numgc.png",
       Ev.newFigure, Ev.savefig "./bench_pause.png" (pauseFig s), Ev.closeFig,
       Ev.stdout "wrote ./bench_pause.png"] := by
  rw [runScript_some_eq h]
  exact renderEvents_eq s

/-- C10 applied to the concrete two-row sample input. -/
theorem c10_witness :
    (runScript (some [row1, row2])).1 =
      [Ev.newFigure, Ev.savefig "./bench_alloc.png" (allocFig sampleSeries),
       Ev.closeFig, Ev.stdout "wrote ./bench_alloc.png",
       Ev.newFigure, Ev.savefig "./bench_goroutines.png" (gorFig sampleSeries),
       Ev.closeFig, Ev.stdout "wrote ./bench_goroutines.png",
       Ev.newFigure, Ev.savefig "./bench_numgc.png" (gcFig sampleSeries),
       Ev.closeFig, Ev.stdout "wrote ./bench_numgc.png",
       Ev.newFigure, Ev.savefig "./bench_pause.png" (pauseFig sampleSeries),
       Ev.closeFig, Ev.stdout "wrote ./bench_pause.png"] :=
  c10_fixed_render_order [row1, row2] sampleSeries parseLoop_sample

/-- The six columns the parse loop reads; every other column is ignored. -/
def sixCols : List String :=
  ["time", "alloc", "heap_alloc", "num_goroutine", "num_gc", "pause_total_ns"]

/-- Two rows agreeing on the six read columns (they may differ elsewhere). -/
def agreeOnCols (r1 r2 : Row) : Prop :=
  ∀ k ∈ sixCols, r1.get k = r2.get k

/-- Row conversion reads only the six columns. -/
lemma parseRow_congr {r1 r2 : Row} (h : agreeOnCols r1 r2) :
    parseRow r1 = parseRow r2 := by
  have ht := h "time" (by simp [sixCols])
  have ha := h "alloc" (by simp [sixCols])
  have hb := h "heap_alloc" (by simp [sixCols])
  have hg := h "num_goroutine" (by simp [sixCols])
  have hn := h "num_gc" (by simp [sixCols])
  have hq := h "pause_total_ns" (by simp [sixCols])
  simp only [parseRow, ht, ha, hb, hg, hn, hq]

/-- The parse loop reads only the six columns of each row. -/
lemma parseLoop_congr {rows1 rows2 : List Row}
    (h : List.Forall₂ agreeOnCols rows1 rows2) :
    parseLoop rows1 = parseLoop rows2 := by
  induction h with
  | nil => rfl
  | cons hr _ ih =>
    rw [parseLoop_cons_eq, parseLoop_cons_eq, parseRow_congr hr, ih]

/-- C8: Two inputs whose rows agree pairwise on the six named columns (and
may differ in additional columns) yield identical derived series and an
identical run: the output depends only on those six columns. -/
theorem c8_output_depends_on_six_columns (rows1 rows2 : List Row)
    (h : List.Forall₂ agreeOnCols rows1 rows2) :
    parseLoop rows1 = parseLoop rows2 ∧
    runScript (some rows1) = runScript (some rows2) := by
  have he := parseLoop_congr h
  exact ⟨he, by simp [runScript, he]⟩

/-- Sample row equal to row1 on the six columns plus an extra column. -/
def row1Ext : Row := ⟨[("time", "2025-01-01T00:00:01+00:00"), ("alloc", "1048576"),
  ("heap_alloc", "2097152"), ("num_goroutine", "5"), ("num_gc", "2"),
  ("pause_total_ns", "1000000"), ("extra_column", "ignored-value")]⟩

lemma agree_row1_row1Ext : agreeOnCols row1 row1Ext := by
  intro k hk
  simp only [sixCols, List.mem_cons, List.not_mem_nil, or_false] at hk
  rcases hk with rfl | rfl | rfl | rfl | rfl | rfl <;> decide

lemma agree_row2_row2 : agreeOnCols row2 row2 := fun _ _ => rfl

/-- C8 applied to concrete inputs differing only in an extra column. -/
theorem c8_witness :
    parseLoop [row1, row2] = parseLoop [row1Ext, row2] ∧
    runScript (some [row1, row2]) = runScript (some [row1Ext, row2]) :=
  c8_output_depends_on_six_columns [row1, row2] [row1Ext, row2]
    (List.Forall₂.cons agree_row1_row1Ext
      (List.Forall₂.cons agree_row2_row2 List.Forall₂.nil))

/-- C9: An input file consisting of only a header row (zero data rows) does
not fail: the reader yields no rows, all six sequences are empty, the four
image files are still written, the four wrote lines are printed, and the
process exits 0. -/
theorem c9_header_only_input (text header : String)
    (h : csvLines text = [header]) :
    dictReader text = [] ∧
    parseLoop (dictReader text) = some Series.empty ∧
    Series.empty.times = [] ∧ Series.empty.alloc = [] ∧
    Series.empty.heap_alloc = [] ∧ Series.empty.goroutines = [] ∧
    Series.empty.num_gc = [] ∧ Series.empty.pause_ns = [] ∧
    runScript (some (dictReader text)) =
      (renderEvents Series.empty, Outcome.success) ∧
    writePaths (renderEvents Series.empty) =
      ["./bench_alloc.png", "./bench_goroutines.png", "./bench_numgc.png",
       "./bench_pause.png"] ∧
    stdoutLines (renderEvents Series.empty) =
      ["wrote ./bench_alloc.png", "wrote ./bench_goroutines.png",
       "wrote ./bench_numgc.png", "wrote ./bench_pause.png"] ∧
    exitCode (runScript (some (dictReader text))).2 = 0 := by
  have hd : dictReader text = [] := by simp [dictReader, h]
  refine ⟨hd, ?_, rfl, rfl, rfl, rfl, rfl, rfl, ?_, ?_, ?_, ?_⟩
  · rw [hd]; rfl
  · rw [hd]; rfl
  · rw [renderEvents_eq]; rfl
  · rw [renderEvents_eq]; rfl
  · rw [hd]; rfl

/-- C9 applied to the concrete header-only file content. -/
theorem c9_witness :
    dictReader "time,alloc,heap_alloc,num_goroutine,num_gc,pause_total_ns\n" = [] ∧
    parseLoop (dictReader
      "time,alloc,heap_alloc,num_goroutine,num_gc,pause_total_ns\n") =
      some Series.empty ∧
    Series.empty.times = [] ∧ Series.empty.alloc = [] ∧
    Series.empty.heap_alloc = [] ∧ Series.empty.goroutines = [] ∧
    Series.empty.num_gc = [] ∧ Series.empty.pause_ns = [] ∧
    runScript (some (dictReader
      "time,alloc,heap_alloc,num_goroutine,num_gc,pause_total_ns\n")) =
      (renderEvents Series.empty, Outcome.success) ∧
    writePaths (renderEvents Series.empty) =
      ["./bench_alloc.png", "./bench_goroutines.png", "./bench_numgc.png",
       "./bench_pause.png"] ∧
    stdoutLines (renderEvents Series.empty) =
      ["wrote ./bench_alloc.png", "wrote ./bench_goroutines.png",
       "wrote ./bench_numgc.png", "wrote ./bench_pause.png"] ∧
    exitCode (runScript (some (dictReader
      "time,alloc,heap_alloc,num_goroutine,num_gc,pause_total_ns\n"))).2 = 0 :=
  c9_header_only_input
    "time,alloc,heap_alloc,num_goroutine,num_gc,pause_total_ns\n"
    "time,alloc,heap_alloc,num_goroutine,num_gc,pause_total_ns"
    (by decide)
